import Mathlib

/-
Verification of the openai-sts relay server.

The embedding follows two source files:
  * src/server.js            -- manual-commit streaming server (Frame Buffer,
                                Commit Scheduler, stop path, client dispatch)
  * src/unnamed/part_001     -- second server variant (lines 432-780) whose
                                OpenAI-event handler buffers audio deltas per
                                response (Event Relay of spec section 4.4)

Bytes are modelled as Nat values, byte buffers as List Nat.  A base64 payload
on the wire is modelled by the byte sequence it decodes to.  Date.now values
are modelled as Int milliseconds.
-/

/-- src/server.js line 8. -/
def SAMPLE_RATE : Nat := 24000

/-- src/server.js line 9. -/
def CHANNELS : Nat := 1

/-- src/server.js line 10. -/
def BITS : Nat := 16

/-- src/server.js line 11. -/
def CHUNK_MS : Nat := 500

/-- src/server.js line 12. -/
def BYTES_PER_SAMPLE : Nat := BITS / 8

/-- src/server.js line 13. -/
def BYTES_PER_SECOND : Nat := SAMPLE_RATE * BYTES_PER_SAMPLE * CHANNELS

/-- src/server.js line 14: Math.floor(BYTES_PER_SECOND * (CHUNK_MS / 1000)). -/
def CHUNK_BYTES : Nat := BYTES_PER_SECOND * CHUNK_MS / 1000

/-- src/server.js line 15: Math.floor(BYTES_PER_SECOND * 0.2). -/
def MIN_BUFFER_SIZE : Nat := BYTES_PER_SECOND * 2 / 10

/-- src/server.js lines 259 and 322: Math.floor(BYTES_PER_SECOND * 0.1). -/
def minRequiredBytes : Nat := BYTES_PER_SECOND / 10

/-- Messages the server sends to the OpenAI websocket
(input_audio_buffer.append / input_audio_buffer.commit / response.create). -/
inductive PeerMsg where
  | append (payload : List Nat)
  | commit
  | responseCreate
deriving DecidableEq

/-- Messages the server sends back to the browser client. -/
inductive ClientMsg where
  | sessionReady
  | translatedAudio (payload : List Nat)
  | translation (text : String)
  | speechStartedMsg
  | speechStoppedMsg
  | sessionStopped
  | error (msg : String)
deriving DecidableEq

/-- Per-connection mutable state of src/server.js lines 35-40.
hasOpenaiWs models whether the openaiWs variable is non-null. -/
structure ServerState where
  hasOpenaiWs : Bool
  isSessionActive : Bool
  responseInProgress : Bool
  audioBuffer : List Nat
  lastCommitTime : Int
  totalAudioSent : Nat
deriving DecidableEq

/-- Initial per-connection state, src/server.js lines 35-40. -/
def initialState : ServerState :=
  { hasOpenaiWs := false, isSessionActive := false, responseInProgress := false,
    audioBuffer := [], lastCommitTime := 0, totalAudioSent := 0 }

/-- The while loop of src/server.js lines 221-236: repeatedly slice a
CHUNK_BYTES frame off the front while at least one full frame is available.
Returns the emitted frames in order and the retained remainder. -/
def sliceFrames (l : List Nat) : List (List Nat) × List Nat :=
  if h : CHUNK_BYTES ≤ l.length then
    let r := sliceFrames (l.drop CHUNK_BYTES)
    (l.take CHUNK_BYTES :: r.1, r.2)
  else
    ([], l)
termination_by l.length
decreasing_by
  have hc : 0 < CHUNK_BYTES := by decide
  simp only [List.length_drop]
  omega

/-- streamAudioToOpenAI, src/server.js lines 208-301.  One call of the audio
handler: guard (line 209), append incoming bytes (lines 213-214), slice and
send whole frames (lines 221-236, totalAudioSent grows by CHUNK_BYTES per
frame), then the auto-commit block (lines 238-297): when the retained
remainder reaches MIN_BUFFER_SIZE and more than 2000 ms elapsed since the
last commit, flush the remainder (lines 245-256), commit only when
totalAudioSent reached minRequiredBytes, resetting the counter (lines
258-278), record the commit time (line 280), and request a response when
none is in progress (lines 282-296).  Returns the new state and the
messages sent to the OpenAI peer, in emission order. -/
def audioStep (s : ServerState) (d : List Nat) (now : Int) :
    ServerState × List PeerMsg :=
  if s.hasOpenaiWs && s.isSessionActive then
    let buf := s.audioBuffer ++ d
    let frames := (sliceFrames buf).1
    let rest := (sliceFrames buf).2
    let sentMsgs := frames.map PeerMsg.append
    let total := s.totalAudioSent + CHUNK_BYTES * frames.length
    if MIN_BUFFER_SIZE ≤ rest.length ∧ 2000 < now - s.lastCommitTime then
      let flushMsgs := if 0 < rest.length then sentMsgs ++ [PeerMsg.append rest] else sentMsgs
      let total2 := if 0 < rest.length then total + rest.length else total
      let buf2 : List Nat := if 0 < rest.length then [] else rest
      let msgs3 := if minRequiredBytes ≤ total2 then flushMsgs ++ [PeerMsg.commit] else flushMsgs
      let total3 := if minRequiredBytes ≤ total2 then 0 else total2
      let msgs4 := if s.responseInProgress = false then msgs3 ++ [PeerMsg.responseCreate] else msgs3
      let rip4 := if s.responseInProgress = false then true else s.responseInProgress
      ({ s with audioBuffer := buf2, totalAudioSent := total3,
                lastCommitTime := now, responseInProgress := rip4 }, msgs4)
    else
      ({ s with audioBuffer := rest, totalAudioSent := total }, sentMsgs)
  else
    (s, [])

/-- stopSession, src/server.js lines 303-363.  Guard (line 304), flush the
retained remainder without clearing the buffer variable (lines 307-319,
totalAudioSent grows by the flushed length), final commit only when
totalAudioSent reached minRequiredBytes with no counter reset (lines
321-336), send session_stopped to the client (lines 347-352).  The
setTimeout at lines 338-345 clears the session flags only after a 1000 ms
grace delay, so the state returned here still carries them.  Returns the
new state, the messages to the OpenAI peer and the messages to the
client. -/
def stopStep (s : ServerState) : ServerState × List PeerMsg × List ClientMsg :=
  if s.hasOpenaiWs && s.isSessionActive then
    let flushMsgs := if 0 < s.audioBuffer.length then [PeerMsg.append s.audioBuffer] else []
    let total1 := if 0 < s.audioBuffer.length then s.totalAudioSent + s.audioBuffer.length else s.totalAudioSent
    let msgs2 := if minRequiredBytes ≤ total1 then flushMsgs ++ [PeerMsg.commit] else flushMsgs
    ({ s with totalAudioSent := total1 }, msgs2, [ClientMsg.sessionStopped])
  else
    (s, [], [])

/-- A parsed client websocket message, src/server.js lines 42-57.  The
malformed case models input on which JSON.parse (line 44) throws, carrying
the exception message; the unknownType case models a well-formed object
whose type field is none of init, audio and stop. -/
inductive ClientEvent where
  | initMsg (sessionId : String)
  | audioChunk (d : List Nat)
  | stopMsg
  | unknownType (t : String)
  | malformed (emsg : String)
deriving DecidableEq

/-- The client message handler, src/server.js lines 42-57.  For init, the
synchronous part of initializeOpenAISession (line 69) assigns the openaiWs
variable; the session becomes active only later in the open callback.  For
audio, the dispatch guard at line 48 requires openaiWs and isSessionActive,
otherwise no branch runs.  An unknown type matches no branch and nothing
happens.  A malformed message makes JSON.parse throw and the catch at lines
53-56 sends an error message to the client.  Returns the new state, the
messages to the OpenAI peer and the messages to the client. -/
def serverDispatch (s : ServerState) (e : ClientEvent) (now : Int) :
    ServerState × List PeerMsg × List ClientMsg :=
  match e with
  | .initMsg _ => ({ s with hasOpenaiWs := true }, [], [])
  | .audioChunk d =>
      if s.hasOpenaiWs && s.isSessionActive then
        let r := audioStep s d now
        (r.1, r.2, [])
      else
        (s, [], [])
  | .stopMsg => stopStep s
  | .unknownType _ => (s, [], [])
  | .malformed emsg => (s, [], [ClientMsg.error emsg])

/-- The bytes carried by an input_audio_buffer.append message, if any. -/
def audioPayload : PeerMsg → Option (List Nat)
  | .append a => some a
  | _ => none

/-- All bytes transmitted to the OpenAI peer by a list of messages, in
order. -/
def emittedAudio (ms : List PeerMsg) : List Nat :=
  (ms.filterMap audioPayload).flatten

/-- A run of consecutive audio handler calls: each element pairs the byte
payload of one audio message with its arrival time.  Returns the final
state and all messages sent to the OpenAI peer, in order. -/
def runAudio (s : ServerState) (calls : List (List Nat × Int)) :
    ServerState × List PeerMsg :=
  match calls with
  | [] => (s, [])
  | c :: cs =>
      let r := audioStep s c.1 c.2
      let rr := runAudio r.1 cs
      (rr.1, r.2 ++ rr.2)

/-- Per-response accumulator state of the second server variant,
src/unnamed/part_001 lines 466-470. -/
structure RelayState where
  responseInProgress : Bool
  currentTranslation : String
  audioChunks : List (List Nat)
deriving DecidableEq

/-- Initial relay state, src/unnamed/part_001 lines 468-470. -/
def initRelay : RelayState :=
  { responseInProgress := false, currentTranslation := "", audioChunks := [] }

/-- A parsed message from the OpenAI websocket, src/unnamed/part_001 lines
558-667.  Optional fields model the presence checks in the handler; a delta
payload stands for the bytes its base64 string decodes to. -/
inductive OpenAIEvent where
  | sessionUpdated
  | responseCreated
  | audioDelta (delta : Option (List Nat))
  | outputItemDone
  | audioTranscriptDelta (delta : Option String)
  | responseDone
  | speechStarted
  | speechStopped
  | bufferCommitted
  | conversationItemCreated
  | errorEvent (emsg : String)
  | unhandled
deriving DecidableEq

/-- The OpenAI message handler of the second server variant,
src/unnamed/part_001 lines 558-671: response.created sets the in-progress
flag and resets both accumulators (lines 568-573); response.audio.delta
appends the decoded bytes to the per-response accumulator and forwards
nothing (lines 575-583); response.audio_transcript.delta extends the
running translation and forwards it (lines 591-603); response.done clears
the flag and, when any chunks accumulated, sends their concatenation as a
single translated_audio message and clears the accumulator (lines 605-622);
speech start and stop notifications pass through (lines 624-643); an error
event clears the flag and forwards the message (lines 653-662); everything
else is ignored.  Returns the new state and the messages sent to the
client. -/
def relayStep (s : RelayState) (e : OpenAIEvent) : RelayState × List ClientMsg :=
  match e with
  | .sessionUpdated => (s, [])
  | .responseCreated =>
      ({ responseInProgress := true, currentTranslation := "", audioChunks := [] }, [])
  | .audioDelta (some d) => ({ s with audioChunks := s.audioChunks ++ [d] }, [])
  | .audioDelta none => (s, [])
  | .outputItemDone => (s, [])
  | .audioTranscriptDelta (some d) =>
      ({ s with currentTranslation := s.currentTranslation ++ d },
       [ClientMsg.translation (s.currentTranslation ++ d)])
  | .audioTranscriptDelta none => (s, [])
  | .responseDone =>
      if 0 < s.audioChunks.length then
        ({ s with responseInProgress := false, audioChunks := [] },
         [ClientMsg.translatedAudio s.audioChunks.flatten])
      else
        ({ s with responseInProgress := false }, [])
  | .speechStarted => (s, [ClientMsg.speechStartedMsg])
  | .speechStopped => (s, [ClientMsg.speechStoppedMsg])
  | .bufferCommitted => (s, [])
  | .conversationItemCreated => (s, [])
  | .errorEvent emsg =>
      ({ s with responseInProgress := false },
       [ClientMsg.error ("Translation error: " ++ emsg)])
  | .unhandled => (s, [])

/-- A run of consecutive OpenAI events through the relay handler.  Returns
the final state and all messages sent to the client, in order. -/
def relayRun (s : RelayState) (es : List OpenAIEvent) : RelayState × List ClientMsg :=
  match es with
  | [] => (s, [])
  | e :: rest =>
      let r := relayStep s e
      let rr := relayRun r.1 rest
      (rr.1, r.2 ++ rr.2)

/-- A connected, active session with an empty buffer; used to instantiate
theorems with hypotheses at concrete inputs. -/
def activeState : ServerState :=
  { initialState with hasOpenaiWs := true, isSessionActive := true }

/-- An active session with a response generation in flight. -/
def busyState : ServerState :=
  { activeState with responseInProgress := true }

/-- An active session holding 5000 buffered bytes and no bytes sent since
the last commit. -/
def buffered5000State : ServerState :=
  { activeState with audioBuffer := List.replicate 5000 0 }

/-- An active session holding 3000 buffered bytes and no bytes sent since
the last commit. -/
def buffered3000State : ServerState :=
  { activeState with audioBuffer := List.replicate 3000 0 }

/- ------------------------------------------------------------------ -/
/- Theorems                                                           -/
/- ------------------------------------------------------------------ -/

@[simp] theorem CHUNK_BYTES_eq : CHUNK_BYTES = 24000 := rfl

@[simp] theorem MIN_BUFFER_SIZE_eq : MIN_BUFFER_SIZE = 9600 := rfl

@[simp] theorem minRequiredBytes_eq : minRequiredBytes = 4800 := rfl

theorem sliceFrames_le (l : List Nat) (h : CHUNK_BYTES ≤ l.length) :
    sliceFrames l =
      (l.take CHUNK_BYTES :: (sliceFrames (l.drop CHUNK_BYTES)).1,
       (sliceFrames (l.drop CHUNK_BYTES)).2) := by
  rw [sliceFrames, dif_pos h]

theorem sliceFrames_lt (l : List Nat) (h : l.length < CHUNK_BYTES) :
    sliceFrames l = ([], l) := by
  rw [sliceFrames, dif_neg (Nat.not_le.mpr h)]

/-- No byte is lost or reordered by the slicing loop: the emitted frames
followed by the remainder reconstitute the input. -/
theorem sliceFrames_flatten (l : List Nat) :
    (sliceFrames l).1.flatten ++ (sliceFrames l).2 = l := by
  induction l using sliceFrames.induct with
  | case1 l h ih =>
      rw [sliceFrames_le l h]
      simp only [List.flatten_cons, List.append_assoc]
      rw [ih, List.take_append_drop]
  | case2 l h =>
      rw [sliceFrames_lt l (Nat.not_le.mp h)]
      simp

/-- The retained remainder is always strictly smaller than one frame. -/
theorem sliceFrames_rest_lt (l : List Nat) :
    (sliceFrames l).2.length < CHUNK_BYTES := by
  induction l using sliceFrames.induct with
  | case1 l h ih =>
      rw [sliceFrames_le l h]
      exact ih
  | case2 l h =>
      rw [sliceFrames_lt l (Nat.not_le.mp h)]
      exact Nat.not_le.mp h

/-- Every emitted frame has exactly CHUNK_BYTES bytes, so the emitted byte
count is CHUNK_BYTES per frame. -/
theorem sliceFrames_flatten_length (l : List Nat) :
    (sliceFrames l).1.flatten.length = CHUNK_BYTES * (sliceFrames l).1.length := by
  induction l using sliceFrames.induct with
  | case1 l h ih =>
      rw [sliceFrames_le l h]
      simp only [List.flatten_cons, List.length_append, List.length_cons,
        List.length_take]
      rw [ih]
      have hm : min CHUNK_BYTES l.length = CHUNK_BYTES := Nat.min_eq_left h
      rw [hm]
      ring
  | case2 l h =>
      rw [sliceFrames_lt l (Nat.not_le.mp h)]
      simp

@[simp] theorem emittedAudio_nil : emittedAudio [] = [] := rfl

@[simp] theorem emittedAudio_append (xs ys : List PeerMsg) :
    emittedAudio (xs ++ ys) = emittedAudio xs ++ emittedAudio ys := by
  simp [emittedAudio, List.filterMap_append]

@[simp] theorem emittedAudio_map_append (l : List (List Nat)) :
    emittedAudio (l.map PeerMsg.append) = l.flatten := by
  induction l with
  | nil => rfl
  | cons a t ih => simp [emittedAudio, audioPayload] at ih ⊢; simp [ih]

@[simp] theorem emittedAudio_single_append (a : List Nat) :
    emittedAudio [PeerMsg.append a] = a := by
  simp [emittedAudio, audioPayload]

@[simp] theorem emittedAudio_commit : emittedAudio [PeerMsg.commit] = [] := rfl

@[simp] theorem emittedAudio_responseCreate :
    emittedAudio [PeerMsg.responseCreate] = [] := rfl

/-- audioStep never changes the connection and activity flags. -/
theorem audioStep_flags (s : ServerState) (d : List Nat) (now : Int) :
    (audioStep s d now).1.hasOpenaiWs = s.hasOpenaiWs
      ∧ (audioStep s d now).1.isSessionActive = s.isSessionActive := by
  simp only [audioStep]
  split_ifs <;> exact ⟨rfl, rfl⟩

/-- One audio handler call conserves bytes: what the call transmits followed
by the retained buffer equals the old buffer followed by the new input. -/
theorem audioStep_conserves (s : ServerState) (d : List Nat) (now : Int)
    (h1 : s.hasOpenaiWs = true) (h2 : s.isSessionActive = true) :
    emittedAudio (audioStep s d now).2 ++ (audioStep s d now).1.audioBuffer
      = s.audioBuffer ++ d := by
  simp only [audioStep, h1, h2, Bool.and_self, if_true]
  split_ifs
  all_goals
    simp only [emittedAudio_append, emittedAudio_map_append,
      emittedAudio_single_append, emittedAudio_commit,
      emittedAudio_responseCreate, List.append_nil, List.append_assoc]
  all_goals exact sliceFrames_flatten (s.audioBuffer ++ d)

/-- Claim C1: for every sequence of audio-chunk calls into
streamAudioToOpenAI of an active session, the concatenation of all byte
sequences emitted to the OpenAI peer (whole frames and flushed remainders,
in order) followed by the final retained remainder buffer equals the
initial buffer followed by the concatenation of all input byte sequences:
no byte loss, no reordering. -/
theorem frame_buffer_conservation (s : ServerState) (calls : List (List Nat × Int))
    (h1 : s.hasOpenaiWs = true) (h2 : s.isSessionActive = true) :
    emittedAudio (runAudio s calls).2 ++ (runAudio s calls).1.audioBuffer
      = s.audioBuffer ++ (calls.map Prod.fst).flatten := by
  induction calls generalizing s with
  | nil => simp [runAudio]
  | cons c cs ih =>
      have hf := audioStep_flags s c.1 c.2
      have hc := audioStep_conserves s c.1 c.2 h1 h2
      have ih2 := ih (audioStep s c.1 c.2).1 (hf.1.trans h1) (hf.2.trans h2)
      simp only [runAudio, emittedAudio_append, List.append_assoc, List.map_cons,
        List.flatten_cons]
      rw [ih2, ← List.append_assoc, hc, List.append_assoc]

/-- Concrete instance of frame_buffer_conservation: an active session with
empty buffer receiving one 3-byte audio call. -/
theorem frame_buffer_conservation_witness :
    activeState.hasOpenaiWs = true
    ∧ activeState.isSessionActive = true
    ∧ emittedAudio (runAudio activeState [([1, 2, 3], 100)]).2
        ++ (runAudio activeState [([1, 2, 3], 100)]).1.audioBuffer
      = [1, 2, 3] := by
  refine ⟨rfl, rfl, ?_⟩
  have h := frame_buffer_conservation activeState [([1, 2, 3], 100)] rfl rfl
  simpa [activeState, initialState] using h

/-- Claim C2: from any relay state, after response.created followed by three
audio deltas A, B, C, no client message at all (in particular no
translated_audio) is emitted before response.done; once response.done
arrives the relay emits exactly one translated_audio message carrying
A ++ B ++ C, and the response-in-progress flag is false afterwards. -/
theorem relay_single_translated_audio (s : RelayState) (A B C : List Nat) :
    (relayRun s [OpenAIEvent.responseCreated, OpenAIEvent.audioDelta (some A),
        OpenAIEvent.audioDelta (some B), OpenAIEvent.audioDelta (some C)]).2 = []
    ∧ (relayRun s [OpenAIEvent.responseCreated, OpenAIEvent.audioDelta (some A),
        OpenAIEvent.audioDelta (some B), OpenAIEvent.audioDelta (some C),
        OpenAIEvent.responseDone]).2
      = [ClientMsg.translatedAudio (A ++ B ++ C)]
    ∧ (relayRun s [OpenAIEvent.responseCreated, OpenAIEvent.audioDelta (some A),
        OpenAIEvent.audioDelta (some B), OpenAIEvent.audioDelta (some C),
        OpenAIEvent.responseDone]).1.responseInProgress = false := by
  refine ⟨rfl, ?_, ?_⟩ <;> simp [relayRun, relayStep]

/-- Claim C3: on an audio call with more than 2000 ms elapsed since the last
commit but whose total bytes-sent-since-commit would stay below the 4800
byte floor even after flushing everything, the handler sends nothing to the
OpenAI peer (no append, no commit, no response.create) and only grows the
retained buffer; counter, commit time and response flag are untouched. -/
theorem scheduler_below_floor_no_action (s : ServerState) (d : List Nat) (now : Int)
    (h1 : s.hasOpenaiWs = true) (h2 : s.isSessionActive = true)
    (helapsed : 2000 < now - s.lastCommitTime)
    (hsmall : s.totalAudioSent + s.audioBuffer.length + d.length < minRequiredBytes) :
    (audioStep s d now).2 = []
    ∧ (audioStep s d now).1 = { s with audioBuffer := s.audioBuffer ++ d } := by
  simp only [minRequiredBytes_eq] at hsmall
  have hlen : (s.audioBuffer ++ d).length < CHUNK_BYTES := by
    simp only [List.length_append, CHUNK_BYTES_eq]
    omega
  have hsf := sliceFrames_lt (s.audioBuffer ++ d) hlen
  have hblock : ¬ (MIN_BUFFER_SIZE ≤ (s.audioBuffer ++ d).length
      ∧ 2000 < now - s.lastCommitTime) := by
    rintro ⟨hb, -⟩
    simp only [List.length_append, MIN_BUFFER_SIZE_eq] at hb
    omega
  simp only [audioStep, h1, h2, Bool.and_self, if_true, hsf]
  rw [if_neg hblock]
  simp

/-- Concrete instance of scheduler_below_floor_no_action: 3 bytes arrive
3000 ms after the last commit with nothing sent since it. -/
theorem scheduler_below_floor_no_action_witness :
    activeState.hasOpenaiWs = true
    ∧ 2000 < (3000 : Int) - activeState.lastCommitTime
    ∧ activeState.totalAudioSent + activeState.audioBuffer.length + 3 < minRequiredBytes
    ∧ (audioStep activeState [1, 2, 3] 3000).2 = [] := by
  refine ⟨rfl, by decide, by decide, ?_⟩
  exact (scheduler_below_floor_no_action activeState [1, 2, 3] 3000 rfl rfl
    (by decide) (by decide)).1

/-- Claim C4: the Commit Scheduler never requests a response while one is in
progress.  In any state whose response-in-progress flag is set, an audio
handler call emits no response.create; the stop path never emits
response.create in any state. -/
theorem no_response_create_while_in_progress (s : ServerState) (d : List Nat) (now : Int) :
    (s.responseInProgress = true → PeerMsg.responseCreate ∉ (audioStep s d now).2)
    ∧ PeerMsg.responseCreate ∉ (stopStep s).2.1 := by
  constructor
  · intro hrip
    simp only [audioStep, hrip]
    split_ifs <;> first | contradiction | simp [List.mem_map]
  · simp only [stopStep]
    split_ifs <;> simp

/-- Concrete instance of no_response_create_while_in_progress: a session
with a response in flight receiving an audio call. -/
theorem no_response_create_while_in_progress_witness :
    busyState.responseInProgress = true
    ∧ PeerMsg.responseCreate ∉ (audioStep busyState (List.replicate 30000 7) 9000).2 :=
  ⟨rfl, (no_response_create_while_in_progress busyState (List.replicate 30000 7) 9000).1 rfl⟩

/-- Total byte count of emitted frames, stated through the mapped lengths
that simp normal forms use. -/
theorem sliceFrames_sum_length (l : List Nat) :
    (List.map List.length (sliceFrames l).1).sum
      = CHUNK_BYTES * (sliceFrames l).1.length := by
  have h := sliceFrames_flatten_length l
  simpa [List.length_flatten] using h

/-- On an active session, stopSession emits the flushed remainder exactly
when the buffer is nonempty, followed by a commit exactly when the total
after flushing reaches the floor; the counter always grows by the flushed
length and is never reset. -/
theorem stopStep_spec (s : ServerState)
    (h1 : s.hasOpenaiWs = true) (h2 : s.isSessionActive = true) :
    (stopStep s).2.1
      = (if 0 < s.audioBuffer.length then [PeerMsg.append s.audioBuffer] else [])
        ++ (if minRequiredBytes ≤ s.totalAudioSent + s.audioBuffer.length
            then [PeerMsg.commit] else [])
    ∧ (stopStep s).1.totalAudioSent = s.totalAudioSent + s.audioBuffer.length
    ∧ (stopStep s).2.2 = [ClientMsg.sessionStopped] := by
  simp only [stopStep, h1, h2, Bool.and_self, if_true]
  rcases Nat.eq_zero_or_pos s.audioBuffer.length with hz | hp
  · simp [hz]
  · simp only [if_pos hp]
    split_ifs <;> simp

/-- Refutation of claim C5 as stated: on session stop with 5000 buffered
bytes and nothing sent since the last commit, stopSession flushes the
remainder and issues a final commit, yet totalAudioSent remains 5000
instead of being reset to zero. -/
theorem stop_commit_no_reset_counterexample :
    PeerMsg.commit ∈ (stopStep buffered5000State).2.1
    ∧ (stopStep buffered5000State).1.totalAudioSent = 5000 := by
  obtain ⟨hm, ht, -⟩ := stopStep_spec buffered5000State rfl rfl
  have hbuf : buffered5000State.audioBuffer = List.replicate 5000 0 := rfl
  have hts : buffered5000State.totalAudioSent = 0 := rfl
  have hlen : buffered5000State.audioBuffer.length = 5000 := by
    rw [hbuf, List.length_replicate]
  rw [hlen, hts] at hm ht
  constructor
  · rw [hm, if_pos (by norm_num), if_pos (by norm_num)]
    simp
  · rw [ht]

/-- Claim C5 as amended: during audio streaming the counter is reset to zero
exactly when a commit is issued and otherwise grows by exactly the number
of bytes transmitted in that call; the stop path always grows the counter
by the bytes it flushes and never resets it, even when it issues the final
commit. -/
theorem totalAudioSent_accounting (s : ServerState) (d : List Nat) (now : Int) :
    ((audioStep s d now).1.totalAudioSent =
       if PeerMsg.commit ∈ (audioStep s d now).2 then 0
       else s.totalAudioSent + (emittedAudio (audioStep s d now).2).length)
    ∧ (stopStep s).1.totalAudioSent
        = s.totalAudioSent + (emittedAudio (stopStep s).2.1).length := by
  constructor
  · simp only [audioStep]
    split_ifs <;>
      simp_all [List.mem_append, List.mem_map, sliceFrames_sum_length] <;>
      omega
  · simp only [stopStep]
    split_ifs <;>
      simp_all [List.mem_append, emittedAudio, audioPayload]

/-- Claim C6: on explicit stop of an active session the retained remainder
is flushed to the OpenAI peer whenever nonempty, a commit is issued exactly
when the bytes sent since the last commit (after flushing) reach the 4800
byte floor, and no response.create is ever emitted on the stop path. -/
theorem stop_flush_commit_iff_floor (s : ServerState)
    (h1 : s.hasOpenaiWs = true) (h2 : s.isSessionActive = true) :
    (0 < s.audioBuffer.length → PeerMsg.append s.audioBuffer ∈ (stopStep s).2.1)
    ∧ (PeerMsg.commit ∈ (stopStep s).2.1
        ↔ minRequiredBytes ≤ s.totalAudioSent + s.audioBuffer.length)
    ∧ PeerMsg.responseCreate ∉ (stopStep s).2.1 := by
  obtain ⟨hm, -, -⟩ := stopStep_spec s h1 h2
  rw [hm]
  refine ⟨fun hp => ?_, ⟨fun hmem => ?_, fun hge => ?_⟩, ?_⟩
  · rw [if_pos hp]
    simp
  · by_contra hlt
    rw [if_neg hlt] at hmem
    split_ifs at hmem <;> simp_all
  · rw [if_pos hge]
    simp
  · split_ifs <;> simp

/-- Concrete instance of stop_flush_commit_iff_floor: stopping with only
3000 bytes sent since the last commit issues no commit. -/
theorem stop_flush_commit_iff_floor_witness :
    buffered3000State.hasOpenaiWs = true
    ∧ buffered3000State.isSessionActive = true
    ∧ PeerMsg.commit ∉ (stopStep buffered3000State).2.1 := by
  refine ⟨rfl, rfl, fun hmem => ?_⟩
  have h := ((stop_flush_commit_iff_floor buffered3000State rfl rfl).2.1).mp hmem
  have hbuf : buffered3000State.audioBuffer = List.replicate 3000 0 := rfl
  have hts : buffered3000State.totalAudioSent = 0 := rfl
  rw [hts, hbuf, List.length_replicate] at h
  norm_num at h

/-- Refutation of claim C7 as stated: a second response.created without an
intervening response.done is neither rejected nor merely ignored, and
nothing is surfaced.  Processing it emits no client message at all (no
error), yet it mutates session state: the audio accumulated for the first
response ([1, 2]) is discarded, so the final translated_audio carries only
[3] instead of [1, 2, 3]. -/
theorem second_response_created_counterexample :
    (relayRun initRelay [OpenAIEvent.responseCreated,
        OpenAIEvent.audioDelta (some [1, 2]), OpenAIEvent.responseCreated,
        OpenAIEvent.audioDelta (some [3]), OpenAIEvent.responseDone]).2
      = [ClientMsg.translatedAudio [3]]
    ∧ (relayRun initRelay [OpenAIEvent.responseCreated,
        OpenAIEvent.audioDelta (some [1, 2])]).1.audioChunks = [[1, 2]]
    ∧ (relayStep (relayRun initRelay [OpenAIEvent.responseCreated,
        OpenAIEvent.audioDelta (some [1, 2])]).1 OpenAIEvent.responseCreated).2 = []
    ∧ (relayStep (relayRun initRelay [OpenAIEvent.responseCreated,
        OpenAIEvent.audioDelta (some [1, 2])]).1
          OpenAIEvent.responseCreated).1.audioChunks = [] := by
  refine ⟨?_, rfl, rfl, rfl⟩
  rfl

/-- Claim C7 as amended: every response.created event, including a second
one arriving while a response is already in progress, is silently accepted:
it sets the in-progress flag and resets the translation and audio
accumulators, discarding any audio already buffered, and emits no client
message and no error. -/
theorem response_created_resets_accumulators (s : RelayState) :
    relayStep s OpenAIEvent.responseCreated
      = ({ responseInProgress := true, currentTranslation := "",
           audioChunks := [] }, []) := rfl

/-- Claim C8: after any audio handler call on an active session the
retained buffer holds strictly less than one frame (CHUNK_BYTES = 24000
bytes); overflow is sliced into whole frames and sent within the same
call. -/
theorem buffer_below_frame_after_step (s : ServerState) (d : List Nat) (now : Int)
    (h1 : s.hasOpenaiWs = true) (h2 : s.isSessionActive = true) :
    (audioStep s d now).1.audioBuffer.length < CHUNK_BYTES := by
  have hrl := sliceFrames_rest_lt (s.audioBuffer ++ d)
  simp only [audioStep, h1, h2, Bool.and_self, if_true]
  split_ifs <;> simp_all

/-- Concrete instance of buffer_below_frame_after_step: an active session
receiving 25000 bytes at once retains fewer than 24000. -/
theorem buffer_below_frame_after_step_witness :
    activeState.hasOpenaiWs = true
    ∧ activeState.isSessionActive = true
    ∧ (audioStep activeState (List.replicate 25000 9) 100).1.audioBuffer.length
        < CHUNK_BYTES :=
  ⟨rfl, rfl, buffer_below_frame_after_step activeState (List.replicate 25000 9) 100 rfl rfl⟩

/-- Refutation of claim C9 as stated: a well-formed client message of
unknown type produces no error message to the client (and no action at
all), against the claim that every malformed or unknown message is
reported to the originating client. -/
theorem unknown_type_no_client_error_counterexample :
    serverDispatch activeState (ClientEvent.unknownType "bogus") 0
      = (activeState, [], []) := rfl

/-- Claim C9 as amended: a malformed (unparseable) client message is
answered with an error message to the originating client, while a
well-formed message of unknown type is silently ignored; in both cases the
session state is completely unchanged and nothing is sent to the OpenAI
peer. -/
theorem client_error_reporting (s : ServerState) (t emsg : String) (now : Int) :
    serverDispatch s (ClientEvent.unknownType t) now = (s, [], [])
    ∧ serverDispatch s (ClientEvent.malformed emsg) now
      = (s, [], [ClientMsg.error emsg]) :=
  ⟨rfl, rfl⟩

/-- Claim C10: an audio message arriving while the OpenAI connection is
absent or the session is not active is silently dropped: the state is
unchanged (no bytes buffered, no counter change) and nothing is sent to
either peer, in particular no error message to the client. -/
theorem inactive_audio_dropped (s : ServerState) (d : List Nat) (now : Int)
    (h : s.hasOpenaiWs = false ∨ s.isSessionActive = false) :
    serverDispatch s (ClientEvent.audioChunk d) now = (s, [], []) := by
  have hg : (s.hasOpenaiWs && s.isSessionActive) = false := by
    rcases h with h | h <;> simp [h]
  simp [serverDispatch, hg]

/-- Concrete instance of inactive_audio_dropped: audio before init is
dropped without any effect. -/
theorem inactive_audio_dropped_witness :
    (initialState.hasOpenaiWs = false ∨ initialState.isSessionActive = false)
    ∧ serverDispatch initialState (ClientEvent.audioChunk [1, 2]) 0
        = (initialState, [], []) :=
  ⟨Or.inl rfl, inactive_audio_dropped initialState [1, 2] 0 (Or.inl rfl)⟩
